import Mathlib

/-!
Verification of the backend-plugin runtime of this repository: the
`grpcPlugin` managed-process type (package `grpcplugin`, file embedded from
`src/unnamed/part_001`) and the `corePlugin` built-in plugin type
(`pkg/internal/plugins/backendplugin/coreplugin/core_plugin.go`).

Payloads (requests, results, resource senders) are opaque to this code —
it only routes them — so they are embedded as `Nat`. Go `(value, error)`
return pairs become `Option Nat × Option GoErr`; a bare Go `error` return
becomes `Option GoErr` (with `none` for Go's `nil`). The hashicorp
`plugin.Client` subprocess handle is external to the repository and is
embedded abstractly as the record of the observations the repository's code
makes of it (`Client()` success, `NegotiatedVersion()`, `Exited()`), with
`Kill()` modelled as marking the handle exited.
-/

/-- Modelled from the spec: the error taxonomy of the `backendplugin`
package (its `errors.go`, absent from the provided sources, §7 of the
spec). `pluginUnavailable` and `methodNotImplemented` are the two distinct
sentinel error values; `noCompatiblePlugin` is the `errors.New("no
compatible plugin implementation found")` value created in
`grpcPlugin.Start`; `external n` stands for any transport-level or
handler-produced error passed through verbatim; `nilDereference` marks a Go
nil-interface method call (a panic), which the code must never reach. -/
inductive GoErr where
  | pluginUnavailable
  | methodNotImplemented
  | noCompatiblePlugin
  | nilDereference
  | external (n : Nat)
  deriving DecidableEq, Repr

/-- The `backendplugin.ErrPluginUnavailable` sentinel value. -/
def ErrPluginUnavailable : GoErr := GoErr.pluginUnavailable

/-- The `backendplugin.ErrMethodNotImplemented` sentinel value. -/
def ErrMethodNotImplemented : GoErr := GoErr.methodNotImplemented

/-- Abstract embedding of a hashicorp `plugin.Client` subprocess handle, as
observed by the repository's code: its identity (each `plugin.NewClient`
call yields a fresh handle for a fresh subprocess) and the current value of
`Exited()`. -/
structure PluginHandle where
  id : Nat
  exited : Bool
  deriving DecidableEq, Repr

/-- `plugin.Client.Kill()`: forcibly terminates the subprocess; afterwards
the handle reports `Exited() == true`. -/
def PluginHandle.kill (h : PluginHandle) : PluginHandle :=
  { h with exited := true }

/-- A negotiated `pluginClient` value (the interface embedding
`backend.CollectMetricsHandler`, `CheckHealthHandler`,
`CallResourceHandler`, `StreamHandler`): its behavior on each capability
call, bound to one subprocess transport. Results are returned verbatim by
the wrapper, so they are arbitrary functions of the opaque request. -/
structure PluginClientVal where
  collectMetrics : Option Nat × Option GoErr
  checkHealth : Nat → Option Nat × Option GoErr
  callResource : Nat → Nat → Option GoErr
  subscribeStream : Nat → Option Nat × Option GoErr
  publishStream : Nat → Option Nat × Option GoErr
  runStream : Nat → Nat → Option GoErr

/-- The `PluginDescriptor` identity record (only the fields the embedded
code reads). -/
structure PluginDescriptor where
  pluginID : String
  managed : Bool
  deriving DecidableEq, Repr

/-- The mutable state of a `grpcPlugin` (file `src/unnamed/part_001`):
subprocess handle `client`, negotiated client `pluginClient`, and the
one-way `decommissioned` flag. -/
structure grpcPlugin where
  descriptor : PluginDescriptor
  client : Option PluginHandle
  pluginClient : Option PluginClientVal
  decommissioned : Bool

/-- The external outcomes consumed by one `grpcPlugin.Start` call: the
fresh handle produced by `clientFactory()`, the result of
`client.Client()` (`none` = success), `client.NegotiatedVersion()`, and
the `(pluginClient, error)` pairs returned by `newClientV2` / `newClientV1`
(these constructors live in the repository's `client_v2.go` /
`client_v1.go`, absent from the provided sources; per the spec they may
yield an error, a client, or neither). -/
structure StartEnv where
  handle : PluginHandle
  connectErr : Option GoErr
  negotiatedVersion : Nat
  v2Result : Option PluginClientVal × Option GoErr
  v1Result : Option PluginClientVal × Option GoErr

/-- `grpcPlugin.Start` (part_001 lines 52–79): stores a fresh handle,
obtains the RPC connection, dispatches on the negotiated version to the v2
or v1 constructor (the Go multi-assignment `p.pluginClient, err = ...`
writes the client field even when an error is returned), and fails with
`noCompatiblePlugin` when no client was produced. -/
def grpcPlugin.Start (p : grpcPlugin) (env : StartEnv) : grpcPlugin × Option GoErr :=
  let p1 : grpcPlugin := { p with client := some env.handle }
  match env.connectErr with
  | some e => (p1, some e)
  | none =>
    let r := if env.negotiatedVersion > 1 then env.v2Result else env.v1Result
    let p2 : grpcPlugin := { p1 with pluginClient := r.1 }
    match r.2 with
    | some e => (p2, some e)
    | none =>
      if p2.pluginClient.isNone then (p2, some GoErr.noCompatiblePlugin)
      else (p2, none)

/-- `grpcPlugin.Stop` (part_001 lines 81–89): kills the subprocess if a
handle exists, and always returns `nil`. -/
def grpcPlugin.Stop (p : grpcPlugin) : grpcPlugin × Option GoErr :=
  match p.client with
  | some h => ({ p with client := some h.kill }, none)
  | none => (p, none)

/-- `grpcPlugin.IsManaged` (part_001 lines 91–93). -/
def grpcPlugin.IsManaged (p : grpcPlugin) : Bool :=
  p.descriptor.managed

/-- `grpcPlugin.Exited` (part_001 lines 95–102): the handle's exited status
when a handle exists, else `true`. -/
def grpcPlugin.Exited (p : grpcPlugin) : Bool :=
  match p.client with
  | some h => h.exited
  | none => true

/-- `grpcPlugin.Decommission` (part_001 lines 104–111): sets the
`decommissioned` flag and returns `nil`. -/
def grpcPlugin.Decommission (p : grpcPlugin) : grpcPlugin × Option GoErr :=
  ({ p with decommissioned := true }, none)

/-- `grpcPlugin.IsDecommissioned` (part_001 lines 113–115). -/
def grpcPlugin.IsDecommissioned (p : grpcPlugin) : Bool :=
  p.decommissioned

/-- `grpcPlugin.getPluginClient` (part_001 lines 117–126): yields
`(nil, false)` when the handle is absent, the handle reports exited, or no
client was negotiated; otherwise the negotiated client with `true`. -/
def grpcPlugin.getPluginClient (p : grpcPlugin) : Option PluginClientVal × Bool :=
  match p.client with
  | none => (none, false)
  | some h =>
    if h.exited then (none, false)
    else
      match p.pluginClient with
      | none => (none, false)
      | some c => (some c, true)

/-- `grpcPlugin.CollectMetrics` (part_001 lines 128–134). The
`(none, true)` case would be a Go nil-interface method call, embedded as
the `nilDereference` error. -/
def grpcPlugin.CollectMetrics (p : grpcPlugin) : Option Nat × Option GoErr :=
  match p.getPluginClient with
  | (_, false) => (none, some ErrPluginUnavailable)
  | (some c, true) => c.collectMetrics
  | (none, true) => (none, some GoErr.nilDereference)

/-- `grpcPlugin.CheckHealth` (part_001 lines 136–142). -/
def grpcPlugin.CheckHealth (p : grpcPlugin) (req : Nat) : Option Nat × Option GoErr :=
  match p.getPluginClient with
  | (_, false) => (none, some ErrPluginUnavailable)
  | (some c, true) => c.checkHealth req
  | (none, true) => (none, some GoErr.nilDereference)

/-- `grpcPlugin.CallResource` (part_001 lines 144–150). -/
def grpcPlugin.CallResource (p : grpcPlugin) (req sender : Nat) : Option GoErr :=
  match p.getPluginClient with
  | (_, false) => some ErrPluginUnavailable
  | (some c, true) => c.callResource req sender
  | (none, true) => some GoErr.nilDereference

/-- `grpcPlugin.SubscribeStream` (part_001 lines 152–158). -/
def grpcPlugin.SubscribeStream (p : grpcPlugin) (req : Nat) : Option Nat × Option GoErr :=
  match p.getPluginClient with
  | (_, false) => (none, some ErrPluginUnavailable)
  | (some c, true) => c.subscribeStream req
  | (none, true) => (none, some GoErr.nilDereference)

/-- `grpcPlugin.PublishStream` (part_001 lines 160–166). -/
def grpcPlugin.PublishStream (p : grpcPlugin) (req : Nat) : Option Nat × Option GoErr :=
  match p.getPluginClient with
  | (_, false) => (none, some ErrPluginUnavailable)
  | (some c, true) => c.publishStream req
  | (none, true) => (none, some GoErr.nilDereference)

/-- `grpcPlugin.RunStream` (part_001 lines 168–174). -/
def grpcPlugin.RunStream (p : grpcPlugin) (req sender : Nat) : Option GoErr :=
  match p.getPluginClient with
  | (_, false) => some ErrPluginUnavailable
  | (some c, true) => c.runStream req sender
  | (none, true) => some GoErr.nilDereference

/-- The `backend.StreamHandler` interface of a core plugin: behavior of its
three stream methods. -/
structure StreamHandlerVal where
  subscribeStream : Nat → Option Nat × Option GoErr
  publishStream : Nat → Option Nat × Option GoErr
  runStream : Nat → Nat → Option GoErr

/-- The state of a `corePlugin` (`core_plugin.go`): an ID and the four
optional injected handlers (a Go nil interface field is `none`). -/
structure corePlugin where
  pluginID : String
  checkHealthHandler : Option (Nat → Option Nat × Option GoErr)
  callResourceHandler : Option (Nat → Nat → Option GoErr)
  queryDataHandler : Option (Nat → Option Nat × Option GoErr)
  streamHandler : Option StreamHandlerVal

/-- `corePlugin.Start` (core_plugin.go lines 55–57): no-op, returns `nil`. -/
def corePlugin.Start (_ : corePlugin) : Option GoErr := none

/-- `corePlugin.Stop` (lines 59–61): no-op, returns `nil`. -/
def corePlugin.Stop (_ : corePlugin) : Option GoErr := none

/-- `corePlugin.IsManaged` (lines 63–65): always `true`. -/
def corePlugin.IsManaged (_ : corePlugin) : Bool := true

/-- `corePlugin.Exited` (lines 67–69): always `false`. -/
def corePlugin.Exited (_ : corePlugin) : Bool := false

/-- `corePlugin.Decommission` (lines 71–73): no-op, returns `nil`. -/
def corePlugin.Decommission (_ : corePlugin) : Option GoErr := none

/-- `corePlugin.IsDecommissioned` (lines 75–77): always `false`. -/
def corePlugin.IsDecommissioned (_ : corePlugin) : Bool := false

/-- `corePlugin.CollectMetrics` (lines 79–81): always `ErrMethodNotImplemented`. -/
def corePlugin.CollectMetrics (_ : corePlugin) : Option Nat × Option GoErr :=
  (none, some ErrMethodNotImplemented)

/-- `corePlugin.CheckHealth` (lines 83–89): delegate to the handler when
present, else `ErrMethodNotImplemented`. -/
def corePlugin.CheckHealth (cp : corePlugin) (req : Nat) : Option Nat × Option GoErr :=
  match cp.checkHealthHandler with
  | some f => f req
  | none => (none, some ErrMethodNotImplemented)

/-- `corePlugin.CallResource` (lines 91–97). -/
def corePlugin.CallResource (cp : corePlugin) (req sender : Nat) : Option GoErr :=
  match cp.callResourceHandler with
  | some f => f req sender
  | none => some ErrMethodNotImplemented

/-- `corePlugin.SubscribeStream` (lines 99–104). -/
def corePlugin.SubscribeStream (cp : corePlugin) (req : Nat) : Option Nat × Option GoErr :=
  match cp.streamHandler with
  | some s => s.subscribeStream req
  | none => (none, some ErrMethodNotImplemented)

/-- `corePlugin.PublishStream` (lines 106–111). -/
def corePlugin.PublishStream (cp : corePlugin) (req : Nat) : Option Nat × Option GoErr :=
  match cp.streamHandler with
  | some s => s.publishStream req
  | none => (none, some ErrMethodNotImplemented)

/-- `corePlugin.RunStream` (lines 113–118). -/
def corePlugin.RunStream (cp : corePlugin) (req sender : Nat) : Option GoErr :=
  match cp.streamHandler with
  | some s => s.runStream req sender
  | none => some ErrMethodNotImplemented

/-- The lock a `grpcPlugin` method acquires on `p.mutex`. -/
inductive LockMode where
  | exclusive
  | shared
  | nolock
  deriving DecidableEq, Repr

/-- The `grpcPlugin` methods that touch lifecycle state. -/
inductive PluginOp where
  | start
  | stop
  | exited
  | decommission
  | isDecommissioned
  | getClient
  deriving DecidableEq, Repr

/-- The lock each method acquires, transcribed from `src/unnamed/part_001`:
`Start` and `Stop` call `p.mutex.Lock()` (exclusive, lines 53, 82);
`Exited` and `getPluginClient` call `p.mutex.RLock()` (shared, lines 96,
118); `Decommission` calls `p.mutex.RLock()` (shared, line 105) even though
it then writes `p.decommissioned`; `IsDecommissioned` (lines 113–115)
acquires no lock at all. -/
def lockAcquired : PluginOp → LockMode
  | PluginOp.start => LockMode.exclusive
  | PluginOp.stop => LockMode.exclusive
  | PluginOp.exited => LockMode.shared
  | PluginOp.decommission => LockMode.shared
  | PluginOp.isDecommissioned => LockMode.nolock
  | PluginOp.getClient => LockMode.shared

/-- Whether the method writes `grpcPlugin` state (from the embedded
definitions: `Start` writes `client` and `pluginClient`, `Stop` kills the
handle, `Decommission` writes `decommissioned`). -/
def writesState : PluginOp → Bool
  | PluginOp.start => true
  | PluginOp.stop => true
  | PluginOp.exited => false
  | PluginOp.decommission => true
  | PluginOp.isDecommissioned => false
  | PluginOp.getClient => false

/-- A concrete descriptor used by the concrete executions below. -/
def dEx : PluginDescriptor := { pluginID := "testdata", managed := true }

/-- A live (not exited) subprocess handle. -/
def hEx : PluginHandle := { id := 1, exited := false }

/-- A concrete negotiated client: every capability answers successfully. -/
def cEx : PluginClientVal :=
  { collectMetrics := (some 10, none)
    checkHealth := fun _ => (some 11, none)
    callResource := fun _ _ => none
    subscribeStream := fun _ => (some 12, none)
    publishStream := fun _ => (some 13, none)
    runStream := fun _ _ => none }

/-- A second concrete negotiated client, bound to a different subprocess,
whose health answer differs from `cEx`'s. -/
def cEx2 : PluginClientVal :=
  { cEx with checkHealth := fun _ => (some 21, none) }

/-- A freshly allocated `grpcPlugin` (as `newPlugin`'s factory returns it):
no handle, no client, not decommissioned. -/
def pEmpty : grpcPlugin :=
  { descriptor := dEx, client := none, pluginClient := none, decommissioned := false }

/-- A `Start` environment: connection succeeds, version 2 negotiated, the
v2 constructor returns `cEx`. -/
def envEx : StartEnv :=
  { handle := hEx
    connectErr := none
    negotiatedVersion := 2
    v2Result := (some cEx, none)
    v1Result := (none, none) }

/-- A second `Start` environment: a fresh subprocess (handle 2), version 2,
the v2 constructor returns `cEx2`. -/
def envEx2 : StartEnv :=
  { handle := { id := 2, exited := false }
    connectErr := none
    negotiatedVersion := 2
    v2Result := (some cEx2, none)
    v1Result := (none, none) }

/-- The state after a successful `Start` of `pEmpty` under `envEx`. -/
def pStarted : grpcPlugin := (pEmpty.Start envEx).1

/-- The state after `Decommission()` on the running `pStarted`. -/
def pDecom : grpcPlugin := (pStarted.Decommission).1

/-- The state after `Stop` on the running `pStarted`. -/
def pStopped : grpcPlugin := (pStarted.Stop).1

/-- The state after a second `Start` (no intervening `Stop`) on `pStarted`. -/
def pRestarted : grpcPlugin := (pStarted.Start envEx2).1

/-- C1 (counterexample): in the reachable state `pDecom` — built by a
successful `Start` followed by `Decommission()` — the decommissioned flag
is set and a live, negotiated client is present, yet `CheckHealth`,
`SubscribeStream` and `CollectMetrics` delegate to the client and return
its answers, not the `PluginUnavailable` error. -/
theorem decommissioned_plugin_still_serves :
    pDecom.IsDecommissioned = true ∧
    pDecom.Exited = false ∧
    pDecom.CheckHealth 0 = (some 11, none) ∧
    pDecom.CheckHealth 0 ≠ (none, some ErrPluginUnavailable) ∧
    pDecom.SubscribeStream 0 ≠ (none, some ErrPluginUnavailable) ∧
    pDecom.CollectMetrics ≠ (none, some ErrPluginUnavailable) := by
  refine ⟨rfl, rfl, rfl, by decide, by decide, by decide⟩

/-- C1 (amended): `Decommission()` only sets the one-way flag reported by
`IsDecommissioned`; it leaves the handle, the negotiated client and
`getPluginClient` untouched, and every capability call behaves exactly as
on the un-decommissioned state — the flag never gates capability calls. -/
theorem decommission_does_not_gate_calls (p : grpcPlugin)
    (hreq rreq rs sreq preq qreq qs : Nat) :
    (p.Decommission).1.IsDecommissioned = true ∧
    (p.Decommission).2 = none ∧
    (p.Decommission).1.client = p.client ∧
    (p.Decommission).1.pluginClient = p.pluginClient ∧
    (p.Decommission).1.getPluginClient = p.getPluginClient ∧
    (p.Decommission).1.CollectMetrics = p.CollectMetrics ∧
    (p.Decommission).1.CheckHealth hreq = p.CheckHealth hreq ∧
    (p.Decommission).1.CallResource rreq rs = p.CallResource rreq rs ∧
    (p.Decommission).1.SubscribeStream sreq = p.SubscribeStream sreq ∧
    (p.Decommission).1.PublishStream preq = p.PublishStream preq ∧
    (p.Decommission).1.RunStream qreq qs = p.RunStream qreq qs := by
  exact ⟨rfl, rfl, rfl, rfl, rfl, rfl, rfl, rfl, rfl, rfl, rfl⟩

/-- C1 (witness for the amended theorem at the concrete running state). -/
theorem decommission_does_not_gate_calls_witness :
    (pStarted.Decommission).1.CheckHealth 0 = pStarted.CheckHealth 0 :=
  (decommission_does_not_gate_calls pStarted 0 0 0 0 0 0 0).2.2.2.2.2.2.1

/-- C2 (counterexample): after a successful `Start` followed by `Stop`, the
subprocess is dead (`Exited` is true, `getPluginClient` refuses), yet the
`pluginClient` field still holds the old client — `Stop` never sets it to
nil, refuting "invalidated (set to nil) when the process exits or is
stopped". -/
theorem stopped_plugin_keeps_client_field :
    (pStarted.Stop).2 = none ∧
    pStopped.Exited = true ∧
    pStopped.pluginClient.isSome = true ∧
    pStopped.client.isSome = true ∧
    pStopped.getPluginClient.2 = false := by
  exact ⟨rfl, rfl, rfl, rfl, rfl⟩

/-- C2 (amended): the `client` and `pluginClient` fields are never reset to
nil by `Stop`; instead `getPluginClient` masks dead state, so the claimed
invariant holds at the observation point: a caller obtains a client iff a
handle exists, it has not exited (and `Stop` kills the handle, so after
`Stop` the gate always refuses), and a client was negotiated; a successful
`Start` publishes a client. No caller ever observes a client bound to a
dead process. -/
theorem client_masked_not_nilled (p : grpcPlugin) :
    ((p.Stop).1.pluginClient = p.pluginClient) ∧
    ((p.Stop).1.getPluginClient = (none, false)) ∧
    (∀ h, p.client = some h → h.exited = true → p.getPluginClient = (none, false)) ∧
    (∀ c, p.getPluginClient = (some c, true) →
      ∃ h, p.client = some h ∧ h.exited = false ∧ p.pluginClient = some c) ∧
    (∀ env, (p.Start env).2 = none → (p.Start env).1.pluginClient.isSome = true) := by
  obtain ⟨d, cl, pc, dec⟩ := p
  refine ⟨?_, ?_, ?_, ?_, ?_⟩
  · cases cl <;> rfl
  · cases cl <;> simp [grpcPlugin.Stop, grpcPlugin.getPluginClient, PluginHandle.kill]
  · rintro h rfl hex
    simp [grpcPlugin.getPluginClient, hex]
  · intro c hc
    cases cl with
    | none => simp [grpcPlugin.getPluginClient] at hc
    | some h =>
      refine ⟨h, rfl, ?_, ?_⟩ <;>
      · simp only [grpcPlugin.getPluginClient] at hc
        rcases hex : h.exited with _ | _ <;> rw [hex] at hc <;>
          cases pc <;> simp_all
  · intro env hsucc
    obtain ⟨eh, ec, ev, r2, r1⟩ := env
    cases ec with
    | some e => simp [grpcPlugin.Start] at hsucc
    | none =>
      simp only [grpcPlugin.Start] at hsucc ⊢
      rcases hr : (if ev > 1 then r2 else r1) with ⟨copt, eopt⟩
      simp only [hr] at hsucc ⊢
      cases eopt with
      | some e => simp at hsucc
      | none =>
        cases copt with
        | none => simp at hsucc
        | some c => simp

/-- C2 (witness for the amended theorem at the concrete running state). -/
theorem client_masked_not_nilled_witness :
    (pStarted.Stop).1.getPluginClient = (none, false) :=
  (client_masked_not_nilled pStarted).2.1

/-- C3: `getPluginClient` returns `(nil, false)` exactly when the handle is
absent, the handle has exited, or no client was negotiated; it never
returns the impossible `(nil, true)` shape, so no capability call can nil-
dereference; when it fails every capability method returns the
`PluginUnavailable` error, and when it succeeds every capability method
delegates to the negotiated client and returns its answer verbatim. -/
theorem capability_gate_and_delegation (p : grpcPlugin)
    (hreq rreq rs sreq preq qreq qs : Nat) :
    (p.getPluginClient = (none, false) ↔
      (p.client = none ∨ (∃ h, p.client = some h ∧ h.exited = true) ∨
        p.pluginClient = none)) ∧
    (p.getPluginClient = (none, false) ∨ ∃ c, p.getPluginClient = (some c, true)) ∧
    (p.getPluginClient = (none, false) →
      p.CollectMetrics = (none, some ErrPluginUnavailable) ∧
      p.CheckHealth hreq = (none, some ErrPluginUnavailable) ∧
      p.CallResource rreq rs = some ErrPluginUnavailable ∧
      p.SubscribeStream sreq = (none, some ErrPluginUnavailable) ∧
      p.PublishStream preq = (none, some ErrPluginUnavailable) ∧
      p.RunStream qreq qs = some ErrPluginUnavailable) ∧
    (∀ c, p.getPluginClient = (some c, true) →
      p.CollectMetrics = c.collectMetrics ∧
      p.CheckHealth hreq = c.checkHealth hreq ∧
      p.CallResource rreq rs = c.callResource rreq rs ∧
      p.SubscribeStream sreq = c.subscribeStream sreq ∧
      p.PublishStream preq = c.publishStream preq ∧
      p.RunStream qreq qs = c.runStream qreq qs) := by
  obtain ⟨d, cl, pc, dec⟩ := p
  have hshape : ∀ b : Bool, ∀ h : PluginHandle, cl = some h → h.exited = b →
      grpcPlugin.getPluginClient ⟨d, cl, pc, dec⟩ =
        if b then (none, false) else
          match pc with
          | none => (none, false)
          | some c => (some c, true) := by
    rintro b h rfl hb
    simp [grpcPlugin.getPluginClient, hb]
  cases cl with
  | none =>
    refine ⟨by simp [grpcPlugin.getPluginClient], Or.inl rfl, fun _ => ?_, fun c hc => ?_⟩
    · exact ⟨rfl, rfl, rfl, rfl, rfl, rfl⟩
    · simp [grpcPlugin.getPluginClient] at hc
  | some h =>
    rcases hb : h.exited with _ | _
    · cases pc with
      | none =>
        have hg : grpcPlugin.getPluginClient ⟨d, some h, none, dec⟩ = (none, false) := by
          simp [grpcPlugin.getPluginClient, hb]
        refine ⟨?_, Or.inl hg, fun _ => ?_, fun c hc => ?_⟩
        · simp [hg]
        · constructor
          on_goal 1 => simp [grpcPlugin.CollectMetrics, hg]
          refine ⟨?_, ?_, ?_, ?_, ?_⟩
          · simp [grpcPlugin.CheckHealth, hg]
          · simp [grpcPlugin.CallResource, hg]
          · simp [grpcPlugin.SubscribeStream, hg]
          · simp [grpcPlugin.PublishStream, hg]
          · simp [grpcPlugin.RunStream, hg]
        · rw [hg] at hc; simp at hc
      | some c0 =>
        have hg : grpcPlugin.getPluginClient ⟨d, some h, some c0, dec⟩ = (some c0, true) := by
          simp [grpcPlugin.getPluginClient, hb]
        refine ⟨?_, Or.inr ⟨c0, hg⟩, fun hfail => ?_, fun c hc => ?_⟩
        · rw [hg]
          constructor
          · intro hcontra; exact absurd hcontra (by simp)
          · rintro (hcontra | ⟨h2, hh2, hex2⟩ | hcontra) <;> simp_all
        · rw [hg] at hfail; simp at hfail
        · rw [hg] at hc
          obtain ⟨rfl, -⟩ : c0 = c ∧ True := by
            refine ⟨?_, trivial⟩
            have := congrArg Prod.fst hc
            simpa using this
          constructor
          on_goal 1 => simp [grpcPlugin.CollectMetrics, hg]
          refine ⟨?_, ?_, ?_, ?_, ?_⟩
          · simp [grpcPlugin.CheckHealth, hg]
          · simp [grpcPlugin.CallResource, hg]
          · simp [grpcPlugin.SubscribeStream, hg]
          · simp [grpcPlugin.PublishStream, hg]
          · simp [grpcPlugin.RunStream, hg]
    · have hg : grpcPlugin.getPluginClient ⟨d, some h, pc, dec⟩ = (none, false) := by
        simp [grpcPlugin.getPluginClient, hb]
      refine ⟨?_, Or.inl hg, fun _ => ?_, fun c hc => ?_⟩
      · rw [hg]; simp [hb]
      · constructor
        on_goal 1 => simp [grpcPlugin.CollectMetrics, hg]
        refine ⟨?_, ?_, ?_, ?_, ?_⟩
        · simp [grpcPlugin.CheckHealth, hg]
        · simp [grpcPlugin.CallResource, hg]
        · simp [grpcPlugin.SubscribeStream, hg]
        · simp [grpcPlugin.PublishStream, hg]
        · simp [grpcPlugin.RunStream, hg]
      · rw [hg] at hc; simp at hc

/-- C3 (witness at the running state `pStarted`, where the gate succeeds
and `CheckHealth` is the client's verbatim answer). -/
theorem capability_gate_and_delegation_witness :
    pStarted.getPluginClient = (some cEx, true) →
    pStarted.CheckHealth 5 = cEx.checkHealth 5 :=
  fun h => ((capability_gate_and_delegation pStarted 5 0 0 0 0 0 0).2.2.2 cEx h).2.1

/-- C4: when the transport connection is obtained (`client.Client()`
succeeds), `Start` dispatches on the negotiated version — strictly greater
than 1 selects the v2 constructor, otherwise (1 or unspecified, i.e. 0)
the legacy v1 constructor; a constructor error is returned as-is; a
constructor that yields neither client nor error makes `Start` fail with
the "no compatible plugin implementation found" error; and when the chosen
constructor yields a client, `Start` succeeds and publishes exactly that
(non-nil) client. -/
theorem start_negotiates_version (p : grpcPlugin) (env : StartEnv)
    (hconn : env.connectErr = none) :
    ((p.Start env).1.client = some env.handle) ∧
    (env.negotiatedVersion > 1 →
      (p.Start env).1.pluginClient = env.v2Result.1 ∧
      (∀ copt e, env.v2Result = (copt, some e) → (p.Start env).2 = some e) ∧
      (env.v2Result = (none, none) →
        (p.Start env).2 = some GoErr.noCompatiblePlugin) ∧
      (∀ c, env.v2Result = (some c, none) →
        (p.Start env).2 = none ∧ (p.Start env).1.pluginClient = some c)) ∧
    (¬ env.negotiatedVersion > 1 →
      (p.Start env).1.pluginClient = env.v1Result.1 ∧
      (∀ copt e, env.v1Result = (copt, some e) → (p.Start env).2 = some e) ∧
      (env.v1Result = (none, none) →
        (p.Start env).2 = some GoErr.noCompatiblePlugin) ∧
      (∀ c, env.v1Result = (some c, none) →
        (p.Start env).2 = none ∧ (p.Start env).1.pluginClient = some c)) ∧
    ((p.Start env).2 = none → (p.Start env).1.pluginClient.isSome = true) := by
  obtain ⟨eh, ec, ev, r2, r1⟩ := env
  cases ec with
  | some e => exact absurd hconn (by simp)
  | none =>
    by_cases hv : ev > 1
    · rcases hr : r2 with ⟨copt, eopt⟩
      refine ⟨?_, fun _ => ⟨?_, ?_, ?_, ?_⟩, fun hnv => absurd hv hnv, ?_⟩ <;>
        simp only [grpcPlugin.Start, hv, hr, if_pos hv] <;>
        cases eopt <;> cases copt <;> simp_all
    · rcases hr : r1 with ⟨copt, eopt⟩
      refine ⟨?_, fun hv2 => absurd hv2 hv, fun _ => ⟨?_, ?_, ?_, ?_⟩, ?_⟩ <;>
        simp only [grpcPlugin.Start, hv, hr, if_neg hv] <;>
        cases eopt <;> cases copt <;> simp_all

/-- C4 (witness at `envEx`: version 2 with a successful v2 construction
publishes `cEx` and succeeds). -/
theorem start_negotiates_version_witness :
    (pEmpty.Start envEx).2 = none ∧ (pEmpty.Start envEx).1.pluginClient = some cEx :=
  ((start_negotiates_version pEmpty envEx rfl).2.1 (by decide)).2.2.2 cEx rfl

/-- C5 (counterexample): calling `Start` a second time on the running
`pStarted`, without an intervening `Stop`, returns success — not a
deterministic error — and is not a no-op either: the second call spawns a
fresh subprocess (handle 2 replaces handle 1) and publishes the freshly
negotiated client, so the observable state differs from the state after
the first `Start` (`CheckHealth` now answers `some 21` instead of
`some 11`). -/
theorem second_start_is_not_noop_nor_error :
    (pStarted.Start envEx2).2 = none ∧
    pStarted.CheckHealth 0 = (some 11, none) ∧
    pRestarted.CheckHealth 0 = (some 21, none) ∧
    pRestarted.CheckHealth 0 ≠ pStarted.CheckHealth 0 ∧
    pStarted.client = some { id := 1, exited := false } ∧
    pRestarted.client = some { id := 2, exited := false } := by
  refine ⟨rfl, rfl, rfl, by decide, rfl, rfl⟩

/-- C5 (amended): a second `Start` without an intervening `Stop` re-runs
the whole start sequence as a full restart: once the new transport
connection is obtained, its outcome and resulting state are exactly those
of a fresh `Start` under the same environment — independent of the
previous handle and client, which are overwritten (the old subprocess is
not killed) — and a successful second `Start` always publishes the freshly
negotiated, fully-initialized client, never a partial one. -/
theorem second_start_is_full_restart (p q : grpcPlugin) (env : StartEnv)
    (hd : p.descriptor = q.descriptor) (hdec : p.decommissioned = q.decommissioned)
    (hconn : env.connectErr = none) :
    (p.Start env).1 = (q.Start env).1 ∧
    (p.Start env).2 = (q.Start env).2 ∧
    ((p.Start env).1.client = some env.handle) ∧
    ((p.Start env).2 = none → (p.Start env).1.pluginClient.isSome = true) := by
  obtain ⟨pd, pcl, ppc, pdec⟩ := p
  obtain ⟨qd, qcl, qpc, qdec⟩ := q
  obtain ⟨eh, ec, ev, r2, r1⟩ := env
  cases ec with
  | some e => exact absurd hconn (by simp)
  | none =>
    simp only at hd hdec
    subst hd hdec
    rcases hr : (if ev > 1 then r2 else r1) with ⟨copt, eopt⟩
    refine ⟨?_, ?_, ?_, ?_⟩ <;>
      simp only [grpcPlugin.Start, hr] <;>
      cases eopt <;> cases copt <;> simp

/-- C5 (witness: restarting `pStarted` under `envEx2` yields the same state
a fresh start from `pEmpty` would yield). -/
theorem second_start_is_full_restart_witness :
    (pStarted.Start envEx2).1 = (pEmpty.Start envEx2).1 :=
  (second_start_is_full_restart pStarted pEmpty envEx2 rfl rfl rfl).1

/-- A core plugin constructed with no handlers at all (as for a core plugin
registered only for data queries through the separate `DataQuery` path). -/
def cpBare : corePlugin :=
  { pluginID := "core"
    checkHealthHandler := none
    callResourceHandler := none
    queryDataHandler := none
    streamHandler := none }

/-- C6: a capability the negotiated handler does not support returns the
`MethodNotImplemented` error: on any core plugin `CollectMetrics` always
does, and when the `StreamHandler` is nil so do `SubscribeStream`,
`PublishStream` and `RunStream` (likewise `CheckHealth` and `CallResource`
under nil handlers); and that error is distinct from the
`PluginUnavailable` error. -/
theorem unsupported_capability_not_implemented (cp : corePlugin)
    (sreq preq rreq rs hreq creq cs : Nat) (hs : cp.streamHandler = none) :
    cp.CollectMetrics = (none, some ErrMethodNotImplemented) ∧
    cp.SubscribeStream sreq = (none, some ErrMethodNotImplemented) ∧
    cp.PublishStream preq = (none, some ErrMethodNotImplemented) ∧
    cp.RunStream rreq rs = some ErrMethodNotImplemented ∧
    (cp.checkHealthHandler = none →
      cp.CheckHealth hreq = (none, some ErrMethodNotImplemented)) ∧
    (cp.callResourceHandler = none →
      cp.CallResource creq cs = some ErrMethodNotImplemented) ∧
    ErrMethodNotImplemented ≠ ErrPluginUnavailable := by
  refine ⟨rfl, ?_, ?_, ?_, ?_, ?_, by decide⟩
  · simp [corePlugin.SubscribeStream, hs]
  · simp [corePlugin.PublishStream, hs]
  · simp [corePlugin.RunStream, hs]
  · intro hh; simp [corePlugin.CheckHealth, hh]
  · intro hc; simp [corePlugin.CallResource, hc]

/-- C6 (witness at the handlerless core plugin `cpBare`). -/
theorem unsupported_capability_not_implemented_witness :
    corePlugin.SubscribeStream cpBare 0 = (none, some ErrMethodNotImplemented) :=
  (unsupported_capability_not_implemented cpBare 0 0 0 0 0 0 0 rfl).2.1

/-- C7: `Exited()` is true exactly when the plugin was never started (no
handle) or the subprocess has terminated; with a live handle it reports the
handle's exited status. -/
theorem exited_reports_handle_status (p : grpcPlugin) :
    (p.Exited = true ↔
      (p.client = none ∨ ∃ h, p.client = some h ∧ h.exited = true)) ∧
    (p.client = none → p.Exited = true) ∧
    (∀ h, p.client = some h → p.Exited = h.exited) := by
  obtain ⟨d, cl, pc, dec⟩ := p
  cases cl with
  | none => exact ⟨by simp [grpcPlugin.Exited], fun _ => rfl, by simp⟩
  | some h =>
    refine ⟨?_, by simp, ?_⟩
    · simp [grpcPlugin.Exited]
    · rintro h2 hh2
      obtain rfl : h = h2 := by simpa using hh2
      rfl

/-- C7 (witness: never-started and running states). -/
theorem exited_reports_handle_status_witness :
    pEmpty.Exited = true ∧ pStarted.Exited = hEx.exited :=
  ⟨(exited_reports_handle_status pEmpty).2.1 rfl,
   (exited_reports_handle_status pStarted).2.2 hEx rfl⟩

/-- C8: `Stop` is total and idempotent: it always returns `nil`; on a
never-started plugin it changes nothing; on a started plugin it kills the
handle and leaves every other field alone; and a second `Stop` leaves the
state of the first `Stop` unchanged. -/
theorem stop_total_and_idempotent (p : grpcPlugin) :
    ((p.Stop).2 = none) ∧
    (((p.Stop).1.Stop).2 = none) ∧
    (((p.Stop).1.Stop).1 = (p.Stop).1) ∧
    (p.client = none → (p.Stop).1 = p) ∧
    (∀ h, p.client = some h → (p.Stop).1.client = some h.kill) ∧
    ((p.Stop).1.Exited = true ∨ p.client = none) ∧
    ((p.Stop).1.pluginClient = p.pluginClient) ∧
    ((p.Stop).1.decommissioned = p.decommissioned) ∧
    ((p.Stop).1.descriptor = p.descriptor) := by
  obtain ⟨d, cl, pc, dec⟩ := p
  cases cl with
  | none =>
    exact ⟨rfl, rfl, rfl, fun _ => rfl, by simp, Or.inr rfl, rfl, rfl, rfl⟩
  | some h =>
    refine ⟨rfl, rfl, ?_, by simp [grpcPlugin.Stop], ?_, ?_, rfl, rfl, rfl⟩
    · simp [grpcPlugin.Stop, PluginHandle.kill]
    · rintro h2 hh2
      obtain rfl : h = h2 := by simpa using hh2
      rfl
    · exact Or.inl (by simp [grpcPlugin.Stop, grpcPlugin.Exited, PluginHandle.kill])

/-- C8 (witness: `Stop` twice on the running state, and on the
never-started state). -/
theorem stop_total_and_idempotent_witness :
    ((pStarted.Stop).1.Stop).1 = (pStarted.Stop).1 ∧ (pEmpty.Stop).1 = pEmpty :=
  ⟨(stop_total_and_idempotent pStarted).2.2.1,
   (stop_total_and_idempotent pEmpty).2.2.2.1 rfl⟩

/-- C9: the lock discipline the source actually implements, evaluated at
the diverging methods: `Decommission` acquires only the shared `RLock`
(part_001 line 105) although it writes the `decommissioned` field — shown
here by the flag flipping on `pEmpty` — and `IsDecommissioned` acquires no
lock at all (lines 113–115), so a `Decommission` write can race a
concurrent `IsDecommissioned` read; `Start`, `Stop`, `Exited` and
`getPluginClient` do follow the claimed discipline. -/
theorem decommission_write_under_shared_lock :
    lockAcquired PluginOp.start = LockMode.exclusive ∧
    lockAcquired PluginOp.stop = LockMode.exclusive ∧
    lockAcquired PluginOp.exited = LockMode.shared ∧
    lockAcquired PluginOp.getClient = LockMode.shared ∧
    lockAcquired PluginOp.decommission = LockMode.shared ∧
    lockAcquired PluginOp.decommission ≠ LockMode.exclusive ∧
    lockAcquired PluginOp.isDecommissioned = LockMode.nolock ∧
    lockAcquired PluginOp.isDecommissioned ≠ LockMode.shared ∧
    writesState PluginOp.decommission = true ∧
    (pEmpty.Decommission).1.IsDecommissioned ≠ pEmpty.IsDecommissioned := by
  decide

/-- C10: a core (built-in) plugin is never unavailable as a process:
`Start`, `Stop` and `Decommission` are no-ops returning `nil`, `Exited`
and `IsDecommissioned` are always false, `IsManaged` is always true, and
every capability call returns either the injected handler's verbatim
answer or the `MethodNotImplemented` error — the core plugin's own code
never produces `PluginUnavailable` (which is distinct from
`MethodNotImplemented`). -/
theorem core_plugin_never_unavailable (cp : corePlugin)
    (hreq rreq rs sreq preq qreq qs : Nat) :
    cp.Start = none ∧ cp.Stop = none ∧ cp.Decommission = none ∧
    cp.Exited = false ∧ cp.IsDecommissioned = false ∧ cp.IsManaged = true ∧
    cp.CollectMetrics = (none, some ErrMethodNotImplemented) ∧
    (cp.CheckHealth hreq = (none, some ErrMethodNotImplemented) ∨
      ∃ f, cp.checkHealthHandler = some f ∧ cp.CheckHealth hreq = f hreq) ∧
    (cp.CallResource rreq rs = some ErrMethodNotImplemented ∨
      ∃ f, cp.callResourceHandler = some f ∧ cp.CallResource rreq rs = f rreq rs) ∧
    (cp.SubscribeStream sreq = (none, some ErrMethodNotImplemented) ∨
      ∃ s, cp.streamHandler = some s ∧ cp.SubscribeStream sreq = s.subscribeStream sreq) ∧
    (cp.PublishStream preq = (none, some ErrMethodNotImplemented) ∨
      ∃ s, cp.streamHandler = some s ∧ cp.PublishStream preq = s.publishStream preq) ∧
    (cp.RunStream qreq qs = some ErrMethodNotImplemented ∨
      ∃ s, cp.streamHandler = some s ∧ cp.RunStream qreq qs = s.runStream qreq qs) ∧
    ErrMethodNotImplemented ≠ ErrPluginUnavailable := by
  obtain ⟨id, chh, crh, qdh, sh⟩ := cp
  refine ⟨rfl, rfl, rfl, rfl, rfl, rfl, rfl, ?_, ?_, ?_, ?_, ?_, by decide⟩
  · cases chh with
    | none => exact Or.inl rfl
    | some f => exact Or.inr ⟨f, rfl, rfl⟩
  · cases crh with
    | none => exact Or.inl rfl
    | some f => exact Or.inr ⟨f, rfl, rfl⟩
  · cases sh with
    | none => exact Or.inl rfl
    | some s => exact Or.inr ⟨s, rfl, rfl⟩
  · cases sh with
    | none => exact Or.inl rfl
    | some s => exact Or.inr ⟨s, rfl, rfl⟩
  · cases sh with
    | none => exact Or.inl rfl
    | some s => exact Or.inr ⟨s, rfl, rfl⟩

/-- C10 (witness at the concrete handlerless core plugin). -/
theorem core_plugin_never_unavailable_witness :
    corePlugin.Exited cpBare = false ∧ corePlugin.IsManaged cpBare = true :=
  ⟨(core_plugin_never_unavailable cpBare 0 0 0 0 0 0 0).2.2.2.1,
   (core_plugin_never_unavailable cpBare 0 0 0 0 0 0 0).2.2.2.2.2.1⟩
